import Mathlib

/-!
Shallow embedding of the two publish scripts of the Step repository
(src/StepRepl/publish.py and src/AvaloniaRepl/publish.py).

Each script is modelled as a pure function from an environment and the
process argument vector to a trace of observable effects together with an
outcome.  The environment records what the scripts read from the host:
`os.sys.platform`, `os.getcwd()`, and the exit code each external command
would return (`subprocess.run(..., shell=True, check=True)` raises
`CalledProcessError` carrying that return code when it is non-zero; the
uncaught exception is modelled by `Outcome.raised`).
-/

/-- An observable effect of a script run: a `print`, a
`subprocess.run(cmd, shell=True, cwd=cwd, check=True)` call, an
`os.system(cmd)` call, or a `shutil.copytree(src, dst, dirs_exist_ok=ok)`
call. -/
inductive Event where
  | print (s : String)
  | exec (cmd : String) (cwd : String)
  | sysCmd (cmd : String)
  | copyTree (src : String) (dst : String) (dirsExistOk : Bool)
deriving DecidableEq

/-- How a script run terminates: `os.sys.exit(code)` or normal fall-through
(`exited`), or an uncaught `subprocess.CalledProcessError` carrying the
child's return code (`raised`). -/
inductive Outcome where
  | exited (code : Int)
  | raised (returncode : Int)
deriving DecidableEq

/-- What the scripts read from the host: `os.sys.platform`, `os.getcwd()`,
and the exit code the external shell command would return. -/
structure Env where
  host : String
  cwd : String
  run : String → Int

/-- `posixpath.dirname`: everything up to the last slash, with trailing
slashes stripped unless the result is all slashes. -/
def dirname (p : String) : String :=
  let cs := p.toList
  let head := (cs.reverse.dropWhile (fun c => c ≠ '/')).reverse
  let head :=
    if head ≠ [] ∧ head.any (fun c => c ≠ '/') then
      (head.reverse.dropWhile (fun c => c = '/')).reverse
    else head
  String.mk head

/-- `ntpath.join a b` for a relative second component `b`: insert a
backslash separator unless `a` is empty or already ends in a separator or
a drive colon. -/
def ntJoin (a b : String) : String :=
  match a.toList.getLast? with
  | none => b
  | some c => if c = '\\' ∨ c = '/' ∨ c = ':' then a ++ b else a ++ "\\" ++ b

/-- Python's `str.startswith(pre)`, computed on the character lists. -/
def strStartsWith (s pre : String) : Bool := pre.toList.isPrefixOf s.toList

/-- The `subprocess.run` calls of a trace, as (command, working directory)
pairs. -/
def execs : List Event → List (String × String)
  | [] => []
  | Event.exec c w :: t => (c, w) :: execs t
  | _ :: t => execs t

/-- The `os.system` calls of a trace. -/
def sysCmds : List Event → List String
  | [] => []
  | Event.sysCmd c :: t => c :: sysCmds t
  | _ :: t => sysCmds t

/-- The `shutil.copytree` calls of a trace, as (src, dst, dirs_exist_ok)
triples. -/
def copies : List Event → List (String × String × Bool)
  | [] => []
  | Event.copyTree s d ok :: t => (s, d, ok) :: copies t
  | _ :: t => copies t

namespace StepRepl

/-- `platforms = ["win-x64", "linux-x64", "osx-x64"]` of
src/StepRepl/publish.py. -/
def platforms : List String := ["win-x64", "linux-x64", "osx-x64"]

/-- `netver = "net8.0"`. -/
def netver : String := "net8.0"

/-- The command string built in `do_build` for the current platform. -/
def buildCommand (cp : String) : String :=
  "dotnet publish StepRepl -r " ++ cp ++
    " -p:IncludeNativeLibrariesForSelfExtract=true -p:PublishReadyToRunComposite=true -p:UseAppHost=true --self-contained true"

/-- `open_output_folder()`: on darwin runs `open` on the per-platform
output folder, on win32 runs `start` on the joined path, otherwise does
nothing. -/
def open_output_folder (env : Env) (current_platform : String) : List Event :=
  if env.host = "darwin" then
    [Event.sysCmd ("open ./bin/Release/" ++ netver ++ "/" ++ current_platform)]
  else if env.host = "win32" then
    [Event.sysCmd ("start " ++
      ntJoin env.cwd ("bin\\Release\\" ++ netver ++ "\\" ++ current_platform))]
  else []

/-- `create_app_bundle()`: copies `BuildAssets/StepRepl.app` over the
output bundle path, copies the publish folder into
`StepRepl.app/Contents/MacOS` (both with `dirs_exist_ok=True`), then
prints a code-signing line on darwin or a warning elsewhere. -/
def create_app_bundle (env : Env) (current_platform : String) : List Event :=
  [Event.print "Creating .app bundle...",
   Event.copyTree "BuildAssets/StepRepl.app"
     ("bin/Release/" ++ netver ++ "/" ++ current_platform ++ "/StepRepl.app") true,
   Event.copyTree ("bin/Release/" ++ netver ++ "/" ++ current_platform ++ "/publish")
     ("bin/Release/" ++ netver ++ "/" ++ current_platform ++ "/StepRepl.app/Contents/MacOS") true]
  ++ (if env.host = "darwin" then
        [Event.print "Codesigning..."]
      else
        [Event.print "WARNING! This platform can't codesign app bundles and/or change the executable bit. Macs may complain or not run the app."])

/-- `do_build()`: prints, runs `dotnet publish` with the parent of the
current working directory as cwd; on success prints completion, calls
`open_output_folder`, and for an `osx`-prefixed platform calls
`create_app_bundle`.  A non-zero exit code becomes `some rc` (the
`CalledProcessError` raised by `check=True`). -/
def do_build (env : Env) (current_platform : String) : List Event × Option Int :=
  let cmd := buildCommand current_platform
  let parent := dirname env.cwd
  let rc := env.run cmd
  let pre := [Event.print ("Publishing for " ++ current_platform ++ "..."),
              Event.exec cmd parent]
  if rc = 0 then
    (pre ++ [Event.print ("Publish completed for " ++ current_platform ++ ".")]
         ++ open_output_folder env current_platform
         ++ (if strStartsWith current_platform "osx" then
               create_app_bundle env current_platform
             else []),
     none)
  else (pre, some rc)

/-- The `for platform in platforms: current_platform = platform; do_build()`
loop of the `all` branch: stops at the first build whose external process
exits non-zero (the exception propagates). -/
def publish_all (env : Env) : List String → List Event × Option Int
  | [] => ([], none)
  | p :: rest =>
    match do_build env p with
    | (evs, none) =>
      match publish_all env rest with
      | (evs2, r) => (evs ++ evs2, r)
    | (evs, some rc) => (evs, some rc)

/-- The text printed by the `--help` branch. -/
def helpText : String :=
  "\n    Usage: python publish.py [options]\n    Script to run `dotnet publish` for a variety of platforms.\n    Mac builds are packaged into an .app bundle, the resources for which are in the BuildAssets folder.\n    \n    Options:\n    --help: Show this help message.\n    --platforms: List available platforms.\n    --target <platform>: Publish for a specific platform. Use 'all' to publish for all platforms.\n    open: Open the output folder in the file explorer."

/-- The trace printed by the `--platforms` branch. -/
def platformsListing : List Event :=
  [Event.print "Available platforms:"]
  ++ platforms.map (fun p => Event.print ("  " ++ p))
  ++ [Event.print "Use '--target <platform>' to publish for a specific platform. '--target all' publishes for all platforms."]

/-- A `(trace, some rc)` pair means the exception escaped past
`os.sys.exit(0)`; `(trace, none)` reaches `os.sys.exit(0)`. -/
def finish : List Event × Option Int → List Event × Outcome
  | (evs, none) => (evs, Outcome.exited 0)
  | (evs, some rc) => (evs, Outcome.raised rc)

/-- The argument dispatch on `os.sys.argv[1]` (with `rest` the arguments
after it).  Mirrors the if/elif chain at the bottom of the script; no
matching branch falls off the end of the file (normal exit 0). -/
def dispatch (env : Env) (a1 : String) (rest : List String) :
    List Event × Outcome :=
  if a1 = "--help" then
    ([Event.print helpText], Outcome.exited 0)
  else if a1 = "--platforms" then
    (platformsListing, Outcome.exited 0)
  else if a1 = "--target" ∨ a1 = "-t" ∨ a1 = "-p" ∨ a1 = "--platform" then
    match rest with
    | [] => ([Event.print "Error: No target platform specified."], Outcome.exited 1)
    | target :: _ =>
      if target ∉ platforms ∧ target ≠ "all" then
        ([Event.print ("Error: Invalid target platform '" ++ target ++
          "'. Use '--platforms' to list available platforms.")], Outcome.exited 1)
      else if target = "all" then
        finish (publish_all env platforms)
      else
        finish (do_build env target)
  else if a1 = "open" then
    (open_output_folder env "", Outcome.exited 0)
  else ([], Outcome.exited 0)

/-- The whole script on an argument vector `argv` (including the program
name at position 0): the body runs only when `len(os.sys.argv) > 1`;
`current_platform` is still `""` in the `open` branch. -/
def runScript (env : Env) (argv : List String) : List Event × Outcome :=
  match argv with
  | _ :: a1 :: rest => dispatch env a1 rest
  | _ => ([], Outcome.exited 0)

end StepRepl

namespace AvaloniaRepl

/-- `platforms = ["win-x64", "linux-x64", "osx-arm64", "osx-x64"]` of
src/AvaloniaRepl/publish.py. -/
def platforms : List String := ["win-x64", "linux-x64", "osx-arm64", "osx-x64"]

/-- The command string built inside the loop. -/
def buildCommand (p : String) : String :=
  "dotnet publish AvaloniaRepl -r " ++ p ++
    " -p:PublishSingleFile=true --self-contained true"

/-- The module-level `for platform in platforms` loop: print, run the
command with the parent directory as cwd, stop at the first non-zero
exit (`check=True`). -/
def publishLoop (env : Env) : List String → List Event × Option Int
  | [] => ([], none)
  | p :: rest =>
    let cmd := buildCommand p
    let pre := [Event.print ("Publishing for " ++ p ++ "..."),
                Event.exec cmd (dirname env.cwd)]
    if env.run cmd = 0 then
      match publishLoop env rest with
      | (evs2, r) => (pre ++ evs2, r)
    else (pre, some (env.run cmd))

/-- The whole script.  It never reads `sys.argv`, so the argument vector
parameter is ignored: whatever the arguments, the loop over all four
platforms runs immediately. -/
def runScript (env : Env) (_argv : List String) : List Event × Outcome :=
  match publishLoop env platforms with
  | (evs, none) =>
    (evs ++ [Event.print "Publish completed for all platforms."], Outcome.exited 0)
  | (evs, some rc) => (evs, Outcome.raised rc)

end AvaloniaRepl

/-- A linux host whose external commands all succeed. -/
def envLinux0 : Env :=
  { host := "linux", cwd := "/home/u/Step/StepRepl", run := fun _ => 0 }

/-- A darwin host whose external commands all succeed. -/
def envDarwin0 : Env :=
  { host := "darwin", cwd := "/Users/u/Step/StepRepl", run := fun _ => 0 }

/-- A win32 host whose external commands all succeed. -/
def envWin0 : Env :=
  { host := "win32", cwd := "C:\\Step\\StepRepl", run := fun _ => 0 }

/-- A linux host where only the linux-x64 StepRepl build fails (exit 1). -/
def envFailLinux : Env :=
  { host := "linux", cwd := "/home/u/Step/StepRepl",
    run := fun c => if c = StepRepl.buildCommand "linux-x64" then 1 else 0 }

theorem execs_append (a b : List Event) : execs (a ++ b) = execs a ++ execs b := by
  induction a with
  | nil => rfl
  | cons e t ih => cases e <;> simp [execs, ih]

theorem sysCmds_append (a b : List Event) :
    sysCmds (a ++ b) = sysCmds a ++ sysCmds b := by
  induction a with
  | nil => rfl
  | cons e t ih => cases e <;> simp [sysCmds, ih]

theorem copies_append (a b : List Event) :
    copies (a ++ b) = copies a ++ copies b := by
  induction a with
  | nil => rfl
  | cons e t ih => cases e <;> simp [copies, ih]

theorem execs_open_output_folder (env : Env) (cp : String) :
    execs (StepRepl.open_output_folder env cp) = [] := by
  unfold StepRepl.open_output_folder
  by_cases h1 : env.host = "darwin" <;> by_cases h2 : env.host = "win32" <;>
    simp [h1, h2, execs]

theorem copies_open_output_folder (env : Env) (cp : String) :
    copies (StepRepl.open_output_folder env cp) = [] := by
  unfold StepRepl.open_output_folder
  by_cases h1 : env.host = "darwin" <;> by_cases h2 : env.host = "win32" <;>
    simp [h1, h2, copies]

theorem execs_create_app_bundle (env : Env) (cp : String) :
    execs (StepRepl.create_app_bundle env cp) = [] := by
  unfold StepRepl.create_app_bundle
  by_cases h : env.host = "darwin" <;> simp [h, execs]

theorem copies_create_app_bundle (env : Env) (cp : String) :
    copies (StepRepl.create_app_bundle env cp) =
      [("BuildAssets/StepRepl.app",
        "bin/Release/" ++ StepRepl.netver ++ "/" ++ cp ++ "/StepRepl.app", true),
       ("bin/Release/" ++ StepRepl.netver ++ "/" ++ cp ++ "/publish",
        "bin/Release/" ++ StepRepl.netver ++ "/" ++ cp ++ "/StepRepl.app/Contents/MacOS",
        true)] := by
  unfold StepRepl.create_app_bundle
  by_cases h : env.host = "darwin" <;> simp [h, copies]

theorem sysCmds_create_app_bundle (env : Env) (cp : String) :
    sysCmds (StepRepl.create_app_bundle env cp) = [] := by
  unfold StepRepl.create_app_bundle
  by_cases h : env.host = "darwin" <;> simp [h, sysCmds]

example : dirname "/home/u/Step/StepRepl" = "/home/u/Step" := by decide
example : dirname "abc" = "" := by decide
example : ntJoin "C:\\Step\\StepRepl" "bin\\Release\\net8.0\\" =
    "C:\\Step\\StepRepl\\bin\\Release\\net8.0\\" := by decide
example :
    StepRepl.runScript envLinux0 ["publish.py", "--target", "bogus"] =
      ([Event.print "Error: Invalid target platform 'bogus'. Use '--platforms' to list available platforms."],
       Outcome.exited 1) := by decide
set_option maxRecDepth 4000 in
example :
    (StepRepl.runScript envLinux0 ["publish.py", "--target", "all"]).2 =
      Outcome.exited 0 := by decide
set_option maxRecDepth 4000 in
example :
    (StepRepl.runScript envFailLinux ["publish.py", "--target", "all"]).2 =
      Outcome.raised 1 := by decide
set_option maxRecDepth 4000 in
example :
    execs (AvaloniaRepl.runScript envLinux0 ["publish.py", "--platforms"]).1 =
      AvaloniaRepl.platforms.map
        (fun p => (AvaloniaRepl.buildCommand p, "/home/u/Step")) := by decide

/-- C1 counterexample: the StepRepl script does not accept `osx-arm64`.
Its `platforms` list is `["win-x64", "linux-x64", "osx-x64"]`, so on a
non-macOS host whose external commands would all succeed, running
`publish.py --target osx-arm64` prints the invalid-target error, exits
with status 1, and performs no build and no copy. -/
theorem c1_counterexample :
    "osx-arm64" ∉ StepRepl.platforms ∧
    StepRepl.runScript envLinux0 ["publish.py", "--target", "osx-arm64"] =
      ([Event.print "Error: Invalid target platform 'osx-arm64'. Use '--platforms' to list available platforms."],
       Outcome.exited 1) := by
  decide

/-- C1 (amended): the StepRepl script's supported set is
`win-x64, linux-x64, osx-x64` and does not include `osx-arm64`; the macOS
target it does support is `osx-x64`, and invoking `--target osx-x64` on a
non-macOS host whose build succeeds copies the bundle template to
`bin/Release/net8.0/osx-x64/StepRepl.app` and the publish output to its
`Contents/MacOS` subdirectory, prints the code-signing warning, and exits
with status 0. -/
theorem c1_theorem (env : Env) (hhost : env.host ≠ "darwin")
    (hok : env.run (StepRepl.buildCommand "osx-x64") = 0) :
    "osx-arm64" ∉ StepRepl.platforms ∧ "osx-x64" ∈ StepRepl.platforms ∧
    copies (StepRepl.runScript env ["publish.py", "--target", "osx-x64"]).1 =
      [("BuildAssets/StepRepl.app", "bin/Release/net8.0/osx-x64/StepRepl.app", true),
       ("bin/Release/net8.0/osx-x64/publish",
        "bin/Release/net8.0/osx-x64/StepRepl.app/Contents/MacOS", true)] ∧
    Event.print "WARNING! This platform can't codesign app bundles and/or change the executable bit. Macs may complain or not run the app." ∈
      (StepRepl.runScript env ["publish.py", "--target", "osx-x64"]).1 ∧
    (StepRepl.runScript env ["publish.py", "--target", "osx-x64"]).2 =
      Outcome.exited 0 := by
  have hr : StepRepl.runScript env ["publish.py", "--target", "osx-x64"] =
      StepRepl.finish (StepRepl.do_build env "osx-x64") := rfl
  have hb : StepRepl.do_build env "osx-x64" =
      ([Event.print "Publishing for osx-x64...",
        Event.exec (StepRepl.buildCommand "osx-x64") (dirname env.cwd)]
       ++ [Event.print "Publish completed for osx-x64."]
       ++ StepRepl.open_output_folder env "osx-x64"
       ++ StepRepl.create_app_bundle env "osx-x64", none) := by
    have hs : strStartsWith "osx-x64" "osx" = true := by decide
    unfold StepRepl.do_build
    simp [hok, hs]
  have hD : Event.print "WARNING! This platform can't codesign app bundles and/or change the executable bit. Macs may complain or not run the app." ∈
      StepRepl.create_app_bundle env "osx-x64" := by
    unfold StepRepl.create_app_bundle
    rw [if_neg hhost]
    simp
  refine ⟨by decide, by decide, ?_, ?_, ?_⟩
  · rw [hr, hb]
    show copies
      ([Event.print "Publishing for osx-x64...",
        Event.exec (StepRepl.buildCommand "osx-x64") (dirname env.cwd)]
       ++ [Event.print "Publish completed for osx-x64."]
       ++ StepRepl.open_output_folder env "osx-x64"
       ++ StepRepl.create_app_bundle env "osx-x64") = _
    rw [copies_append, copies_append, copies_append, copies_open_output_folder,
      copies_create_app_bundle]
    rfl
  · rw [hr, hb]
    exact List.mem_append.mpr (Or.inr hD)
  · rw [hr, hb]
    rfl

/-- C1 witness: the amended theorem applied to a linux host whose external
commands all succeed. -/
theorem c1_witness :
    "osx-arm64" ∉ StepRepl.platforms ∧ "osx-x64" ∈ StepRepl.platforms ∧
    copies (StepRepl.runScript envLinux0 ["publish.py", "--target", "osx-x64"]).1 =
      [("BuildAssets/StepRepl.app", "bin/Release/net8.0/osx-x64/StepRepl.app", true),
       ("bin/Release/net8.0/osx-x64/publish",
        "bin/Release/net8.0/osx-x64/StepRepl.app/Contents/MacOS", true)] ∧
    Event.print "WARNING! This platform can't codesign app bundles and/or change the executable bit. Macs may complain or not run the app." ∈
      (StepRepl.runScript envLinux0 ["publish.py", "--target", "osx-x64"]).1 ∧
    (StepRepl.runScript envLinux0 ["publish.py", "--target", "osx-x64"]).2 =
      Outcome.exited 0 :=
  c1_theorem envLinux0 (by decide) (by decide)

/-- C3: for any environment, any of the four target flags, and any string
x that is neither a supported platform nor "all", the StepRepl script
prints exactly the invalid-target error and exits 1; with the flag but no
following argument it prints exactly the missing-target error and exits 1.
In both cases the trace holds a single print and nothing else, so no
external process call, no folder open and no copy occurs. -/
theorem c3_theorem (env : Env) (flag x : String)
    (hf : flag = "--target" ∨ flag = "-t" ∨ flag = "-p" ∨ flag = "--platform")
    (hx : x ∉ StepRepl.platforms) (hall : x ≠ "all") :
    StepRepl.runScript env ["publish.py", flag, x] =
      ([Event.print ("Error: Invalid target platform '" ++ x ++
        "'. Use '--platforms' to list available platforms.")], Outcome.exited 1) ∧
    StepRepl.runScript env ["publish.py", flag] =
      ([Event.print "Error: No target platform specified."], Outcome.exited 1) := by
  have hchain : ∀ rest : List String,
      StepRepl.runScript env ("publish.py" :: flag :: rest) =
        StepRepl.dispatch env flag rest := fun _ => rfl
  have hne1 : flag ≠ "--help" := by
    rcases hf with h | h | h | h <;> subst h <;> decide
  have hne2 : flag ≠ "--platforms" := by
    rcases hf with h | h | h | h <;> subst h <;> decide
  constructor
  · rw [hchain [x]]
    unfold StepRepl.dispatch
    rw [if_neg hne1, if_neg hne2, if_pos hf]
    exact if_pos ⟨hx, hall⟩
  · rw [hchain []]
    unfold StepRepl.dispatch
    rw [if_neg hne1, if_neg hne2, if_pos hf]

/-- C3 witness: the theorem at a linux host with flag `--target` and the
unsupported string "bogus". -/
theorem c3_witness :
    StepRepl.runScript envLinux0 ["publish.py", "--target", "bogus"] =
      ([Event.print "Error: Invalid target platform 'bogus'. Use '--platforms' to list available platforms."],
       Outcome.exited 1) ∧
    StepRepl.runScript envLinux0 ["publish.py", "--target"] =
      ([Event.print "Error: No target platform specified."], Outcome.exited 1) :=
  c3_theorem envLinux0 "--target" "bogus" (Or.inl rfl) (by decide) (by decide)

/-- C9: the StepRepl script run with no arguments beyond the program name,
or with a first argument outside the recognized set (`--help`,
`--platforms`, `--target`, `-t`, `-p`, `--platform`, `open`), produces an
empty trace (no build, no print) and terminates with exit status 0. -/
theorem c9_theorem (env : Env) (prog a : String) (rest : List String)
    (h : a ∉ ["--help", "--platforms", "--target", "-t", "-p", "--platform", "open"]) :
    StepRepl.runScript env [prog] = ([], Outcome.exited 0) ∧
    StepRepl.runScript env (prog :: a :: rest) = ([], Outcome.exited 0) := by
  simp only [List.mem_cons, List.not_mem_nil, or_false, not_or] at h
  obtain ⟨h1, h2, h3, h4, h5, h6, h7⟩ := h
  refine ⟨rfl, ?_⟩
  have hchain : StepRepl.runScript env (prog :: a :: rest) =
      StepRepl.dispatch env a rest := rfl
  rw [hchain]
  unfold StepRepl.dispatch
  rw [if_neg h1, if_neg h2, if_neg (by simp [h3, h4, h5, h6]), if_neg h7]

/-- C9 witness: the theorem at a linux host with the unrecognized first
argument "frobnicate". -/
theorem c9_witness :
    StepRepl.runScript envLinux0 ["publish.py"] = ([], Outcome.exited 0) ∧
    StepRepl.runScript envLinux0 ["publish.py", "frobnicate"] = ([], Outcome.exited 0) :=
  c9_theorem envLinux0 "publish.py" "frobnicate" [] (by decide)

theorem finish_none (evs : List Event) :
    StepRepl.finish (evs, none) = (evs, Outcome.exited 0) := rfl

theorem finish_some (evs : List Event) (rc : Int) :
    StepRepl.finish (evs, some rc) = (evs, Outcome.raised rc) := rfl

theorem do_build_fail (env : Env) (p : String)
    (hp : env.run (StepRepl.buildCommand p) ≠ 0) :
    StepRepl.do_build env p =
      ([Event.print ("Publishing for " ++ p ++ "..."),
        Event.exec (StepRepl.buildCommand p) (dirname env.cwd)],
       some (env.run (StepRepl.buildCommand p))) := by
  simp only [StepRepl.do_build]
  rw [if_neg hp]

theorem do_build_ok (env : Env) (p : String)
    (hp : env.run (StepRepl.buildCommand p) = 0) :
    StepRepl.do_build env p =
      ([Event.print ("Publishing for " ++ p ++ "..."),
        Event.exec (StepRepl.buildCommand p) (dirname env.cwd)]
       ++ [Event.print ("Publish completed for " ++ p ++ ".")]
       ++ StepRepl.open_output_folder env p
       ++ (if strStartsWith p "osx" then StepRepl.create_app_bundle env p else []),
       none) := by
  simp only [StepRepl.do_build]
  rw [if_pos hp]

theorem execs_do_build_ok (env : Env) (p : String)
    (hp : env.run (StepRepl.buildCommand p) = 0) :
    execs (StepRepl.do_build env p).1 =
      [(StepRepl.buildCommand p, dirname env.cwd)] := by
  rw [do_build_ok env p hp]
  show execs
    ([Event.print ("Publishing for " ++ p ++ "..."),
      Event.exec (StepRepl.buildCommand p) (dirname env.cwd)]
     ++ [Event.print ("Publish completed for " ++ p ++ ".")]
     ++ StepRepl.open_output_folder env p
     ++ (if strStartsWith p "osx" then StepRepl.create_app_bundle env p else [])) = _
  rw [execs_append, execs_append, execs_append, execs_open_output_folder]
  have hif : execs
      (if strStartsWith p "osx" then StepRepl.create_app_bundle env p else []) = [] := by
    by_cases h : strStartsWith p "osx" = true
    · rw [if_pos h, execs_create_app_bundle]
    · rw [if_neg h]
      rfl
  rw [hif]
  rfl

theorem publish_all_cons_ok (env : Env) (p : String) (rest : List String)
    (hp : env.run (StepRepl.buildCommand p) = 0) :
    StepRepl.publish_all env (p :: rest) =
      ((StepRepl.do_build env p).1 ++ (StepRepl.publish_all env rest).1,
       (StepRepl.publish_all env rest).2) := by
  have h := do_build_ok env p hp
  cases hq : StepRepl.publish_all env rest with
  | mk evs2 r =>
    simp only [StepRepl.publish_all, h, hq]

theorem publish_all_cons_fail (env : Env) (p : String) (rest : List String)
    (hp : env.run (StepRepl.buildCommand p) ≠ 0) :
    StepRepl.publish_all env (p :: rest) =
      ([Event.print ("Publishing for " ++ p ++ "..."),
        Event.exec (StepRepl.buildCommand p) (dirname env.cwd)],
       some (env.run (StepRepl.buildCommand p))) := by
  have h := do_build_fail env p hp
  simp only [StepRepl.publish_all, h]

/-- C2: `publish.py --target all` runs the builds in the listed order
win-x64, linux-x64, osx-x64 and stops at the first non-zero exit.  If the
first build fails, its trace holds only that one `dotnet publish` call and
the run ends as an uncaught error carrying that exit code; likewise after
a failure of the second or third build the earlier platforms have been
invoked exactly once each and the later ones never; if all three succeed,
each platform is built exactly once in order and the script exits 0. -/
theorem c2_theorem (env : Env) :
    (env.run (StepRepl.buildCommand "win-x64") ≠ 0 →
      StepRepl.runScript env ["publish.py", "--target", "all"] =
        ([Event.print "Publishing for win-x64...",
          Event.exec (StepRepl.buildCommand "win-x64") (dirname env.cwd)],
         Outcome.raised (env.run (StepRepl.buildCommand "win-x64")))) ∧
    (env.run (StepRepl.buildCommand "win-x64") = 0 →
     env.run (StepRepl.buildCommand "linux-x64") ≠ 0 →
      execs (StepRepl.runScript env ["publish.py", "--target", "all"]).1 =
        [(StepRepl.buildCommand "win-x64", dirname env.cwd),
         (StepRepl.buildCommand "linux-x64", dirname env.cwd)] ∧
      (StepRepl.runScript env ["publish.py", "--target", "all"]).2 =
        Outcome.raised (env.run (StepRepl.buildCommand "linux-x64"))) ∧
    (env.run (StepRepl.buildCommand "win-x64") = 0 →
     env.run (StepRepl.buildCommand "linux-x64") = 0 →
     env.run (StepRepl.buildCommand "osx-x64") ≠ 0 →
      execs (StepRepl.runScript env ["publish.py", "--target", "all"]).1 =
        [(StepRepl.buildCommand "win-x64", dirname env.cwd),
         (StepRepl.buildCommand "linux-x64", dirname env.cwd),
         (StepRepl.buildCommand "osx-x64", dirname env.cwd)] ∧
      (StepRepl.runScript env ["publish.py", "--target", "all"]).2 =
        Outcome.raised (env.run (StepRepl.buildCommand "osx-x64"))) ∧
    (env.run (StepRepl.buildCommand "win-x64") = 0 →
     env.run (StepRepl.buildCommand "linux-x64") = 0 →
     env.run (StepRepl.buildCommand "osx-x64") = 0 →
      execs (StepRepl.runScript env ["publish.py", "--target", "all"]).1 =
        [(StepRepl.buildCommand "win-x64", dirname env.cwd),
         (StepRepl.buildCommand "linux-x64", dirname env.cwd),
         (StepRepl.buildCommand "osx-x64", dirname env.cwd)] ∧
      (StepRepl.runScript env ["publish.py", "--target", "all"]).2 =
        Outcome.exited 0) := by
  have hr : StepRepl.runScript env ["publish.py", "--target", "all"] =
      StepRepl.finish (StepRepl.publish_all env StepRepl.platforms) := rfl
  have hplat : StepRepl.platforms = "win-x64" :: "linux-x64" :: ["osx-x64"] := rfl
  refine ⟨?_, ?_, ?_, ?_⟩
  · intro h1
    rw [hr, hplat, publish_all_cons_fail env "win-x64" _ h1, finish_some]
    rfl
  · intro h1 h2
    have hall2 : StepRepl.publish_all env StepRepl.platforms =
        ((StepRepl.do_build env "win-x64").1 ++
          [Event.print "Publishing for linux-x64...",
           Event.exec (StepRepl.buildCommand "linux-x64") (dirname env.cwd)],
         some (env.run (StepRepl.buildCommand "linux-x64"))) := by
      rw [hplat, publish_all_cons_ok env "win-x64" _ h1,
        publish_all_cons_fail env "linux-x64" _ h2]
      rfl
    constructor
    · rw [hr, hall2, finish_some]
      dsimp only
      rw [execs_append, execs_do_build_ok env "win-x64" h1]
      rfl
    · rw [hr, hall2, finish_some]
  · intro h1 h2 h3
    have hall3 : StepRepl.publish_all env StepRepl.platforms =
        ((StepRepl.do_build env "win-x64").1 ++
          ((StepRepl.do_build env "linux-x64").1 ++
            [Event.print "Publishing for osx-x64...",
             Event.exec (StepRepl.buildCommand "osx-x64") (dirname env.cwd)]),
         some (env.run (StepRepl.buildCommand "osx-x64"))) := by
      rw [hplat, publish_all_cons_ok env "win-x64" _ h1,
        publish_all_cons_ok env "linux-x64" _ h2,
        publish_all_cons_fail env "osx-x64" _ h3]
      rfl
    constructor
    · rw [hr, hall3, finish_some]
      dsimp only
      rw [execs_append, execs_do_build_ok env "win-x64" h1,
        execs_append, execs_do_build_ok env "linux-x64" h2]
      rfl
    · rw [hr, hall3, finish_some]
  · intro h1 h2 h3
    have hall4 : StepRepl.publish_all env StepRepl.platforms =
        ((StepRepl.do_build env "win-x64").1 ++
          ((StepRepl.do_build env "linux-x64").1 ++
            ((StepRepl.do_build env "osx-x64").1 ++ [])),
         none) := by
      rw [hplat, publish_all_cons_ok env "win-x64" _ h1,
        publish_all_cons_ok env "linux-x64" _ h2,
        publish_all_cons_ok env "osx-x64" _ h3]
      rfl
    constructor
    · rw [hr, hall4, finish_none]
      dsimp only
      rw [execs_append, execs_do_build_ok env "win-x64" h1,
        execs_append, execs_do_build_ok env "linux-x64" h2,
        execs_append, execs_do_build_ok env "osx-x64" h3]
      rfl
    · rw [hr, hall4, finish_none]

/-- C2 witness: on a host where the win-x64 build succeeds and the
linux-x64 build exits 1, the `all` run performs exactly those two builds
in order and ends as an error carrying exit code 1. -/
theorem c2_witness :
    execs (StepRepl.runScript envFailLinux ["publish.py", "--target", "all"]).1 =
      [(StepRepl.buildCommand "win-x64", dirname envFailLinux.cwd),
       (StepRepl.buildCommand "linux-x64", dirname envFailLinux.cwd)] ∧
    (StepRepl.runScript envFailLinux ["publish.py", "--target", "all"]).2 =
      Outcome.raised (envFailLinux.run (StepRepl.buildCommand "linux-x64")) :=
  (c2_theorem envFailLinux).2.1 (by decide) (by decide)

theorem finish_fst (x : List Event × Option Int) :
    (StepRepl.finish x).1 = x.1 := by
  obtain ⟨evs, r⟩ := x
  cases r <;> rfl

theorem run_target_mem (env : Env) (p : String) (hp : p ∈ StepRepl.platforms) :
    StepRepl.runScript env ["publish.py", "--target", p] =
      StepRepl.finish (StepRepl.do_build env p) := by
  have hnall : p ≠ "all" := by
    intro h
    subst h
    exact absurd hp (by decide)
  have hchain : StepRepl.runScript env ["publish.py", "--target", p] =
      StepRepl.dispatch env "--target" [p] := rfl
  rw [hchain]
  unfold StepRepl.dispatch
  rw [if_neg (by decide : ¬("--target" = "--help")),
    if_neg (by decide : ¬("--target" = "--platforms")),
    if_pos (Or.inl rfl :
      "--target" = "--target" ∨ "--target" = "-t" ∨ "--target" = "-p" ∨
        "--target" = "--platform")]
  dsimp only
  rw [if_neg (show ¬(p ∉ StepRepl.platforms ∧ p ≠ "all") from fun hc => hc.1 hp),
    if_neg hnall]

/-- C5: for every supported platform p, running the StepRepl script with
`--target p` performs exactly one `dotnet publish` call, whose command is
the fixed template with p substituted and whose working directory is the
parent (`os.path.dirname`) of the script's current working directory;
this holds whether the build succeeds or fails. -/
theorem c5_theorem (env : Env) (p : String) (hp : p ∈ StepRepl.platforms) :
    execs (StepRepl.runScript env ["publish.py", "--target", p]).1 =
      [(StepRepl.buildCommand p, dirname env.cwd)] := by
  rw [run_target_mem env p hp, finish_fst]
  by_cases hok : env.run (StepRepl.buildCommand p) = 0
  · exact execs_do_build_ok env p hok
  · rw [do_build_fail env p hok]
    rfl

/-- C5 witness: the theorem at a linux host for win-x64, with the command
template spelled out. -/
theorem c5_witness :
    "win-x64" ∈ StepRepl.platforms ∧
    StepRepl.buildCommand "win-x64" =
      "dotnet publish StepRepl -r win-x64 -p:IncludeNativeLibrariesForSelfExtract=true -p:PublishReadyToRunComposite=true -p:UseAppHost=true --self-contained true" ∧
    execs (StepRepl.runScript envLinux0 ["publish.py", "--target", "win-x64"]).1 =
      [(StepRepl.buildCommand "win-x64", dirname envLinux0.cwd)] :=
  ⟨by decide, rfl, c5_theorem envLinux0 "win-x64" (by decide)⟩

theorem avalonia_loop_ok (env : Env) (l : List String)
    (h : ∀ p ∈ l, env.run (AvaloniaRepl.buildCommand p) = 0) :
    execs (AvaloniaRepl.publishLoop env l).1 =
      l.map (fun p => (AvaloniaRepl.buildCommand p, dirname env.cwd)) ∧
    (AvaloniaRepl.publishLoop env l).2 = none := by
  induction l with
  | nil => exact ⟨rfl, rfl⟩
  | cons p rest ih =>
    have hp : env.run (AvaloniaRepl.buildCommand p) = 0 := h p (by simp)
    obtain ⟨ih1, ih2⟩ := ih (fun q hq => h q (by simp [hq]))
    cases hq : AvaloniaRepl.publishLoop env rest with
    | mk evs2 r =>
      rw [hq] at ih1 ih2
      dsimp only at ih1 ih2
      subst ih2
      have hstep : AvaloniaRepl.publishLoop env (p :: rest) =
          ([Event.print ("Publishing for " ++ p ++ "..."),
            Event.exec (AvaloniaRepl.buildCommand p) (dirname env.cwd)] ++ evs2,
           none) := by
        simp only [AvaloniaRepl.publishLoop]
        rw [if_pos hp, hq]
      rw [hstep]
      dsimp only
      refine ⟨?_, rfl⟩
      rw [execs_append, ih1]
      rfl

/-- C4 counterexample: the AvaloniaRepl script does not expose the CLI
surface.  Invoked with first argument `--platforms` on a host where every
build succeeds, it does not print the platform list; instead it runs the
external build command for all four of its platforms. -/
theorem c4_counterexample :
    Event.print "Available platforms:" ∉
      (AvaloniaRepl.runScript envLinux0 ["publish.py", "--platforms"]).1 ∧
    execs (AvaloniaRepl.runScript envLinux0 ["publish.py", "--platforms"]).1 =
      [(AvaloniaRepl.buildCommand "win-x64", "/home/u/Step"),
       (AvaloniaRepl.buildCommand "linux-x64", "/home/u/Step"),
       (AvaloniaRepl.buildCommand "osx-arm64", "/home/u/Step"),
       (AvaloniaRepl.buildCommand "osx-x64", "/home/u/Step")] := by
  decide

/-- C4 (amended): only the StepRepl script exposes the described CLI
surface: with first argument `--platforms` it prints the platform listing
and exits 0 with no build.  The AvaloniaRepl script ignores its argument
vector entirely: any two invocations on the same host behave identically,
and when every build succeeds it runs one build per its four platforms and
exits 0. -/
theorem c4_theorem (env : Env) (argv argv2 : List String)
    (hall : ∀ p ∈ AvaloniaRepl.platforms,
      env.run (AvaloniaRepl.buildCommand p) = 0) :
    StepRepl.runScript env ["publish.py", "--platforms"] =
      (StepRepl.platformsListing, Outcome.exited 0) ∧
    execs StepRepl.platformsListing = [] ∧
    AvaloniaRepl.runScript env argv = AvaloniaRepl.runScript env argv2 ∧
    execs (AvaloniaRepl.runScript env argv).1 =
      AvaloniaRepl.platforms.map
        (fun p => (AvaloniaRepl.buildCommand p, dirname env.cwd)) ∧
    (AvaloniaRepl.runScript env argv).2 = Outcome.exited 0 := by
  obtain ⟨hm1, hm2⟩ := avalonia_loop_ok env AvaloniaRepl.platforms hall
  cases hq : AvaloniaRepl.publishLoop env AvaloniaRepl.platforms with
  | mk evs r =>
    rw [hq] at hm1 hm2
    dsimp only at hm1 hm2
    subst hm2
    have hrun : AvaloniaRepl.runScript env argv =
        (evs ++ [Event.print "Publish completed for all platforms."],
         Outcome.exited 0) := by
      simp only [AvaloniaRepl.runScript]
      rw [hq]
    refine ⟨rfl, rfl, rfl, ?_, ?_⟩
    · rw [hrun]
      dsimp only
      rw [execs_append, hm1]
      simp [execs]
    · rw [hrun]

/-- C4 witness: the amended theorem at a linux host where every build
succeeds, comparing the `--platforms` invocation with the bare one. -/
theorem c4_witness :
    StepRepl.runScript envLinux0 ["publish.py", "--platforms"] =
      (StepRepl.platformsListing, Outcome.exited 0) ∧
    execs StepRepl.platformsListing = [] ∧
    AvaloniaRepl.runScript envLinux0 ["publish.py", "--platforms"] =
      AvaloniaRepl.runScript envLinux0 ["publish.py"] ∧
    execs (AvaloniaRepl.runScript envLinux0 ["publish.py", "--platforms"]).1 =
      AvaloniaRepl.platforms.map
        (fun p => (AvaloniaRepl.buildCommand p, dirname envLinux0.cwd)) ∧
    (AvaloniaRepl.runScript envLinux0 ["publish.py", "--platforms"]).2 =
      Outcome.exited 0 :=
  c4_theorem envLinux0 ["publish.py", "--platforms"] ["publish.py"]
    (fun _ _ => rfl)

/-- C6: for a macOS target (a platform string starting with "osx") whose
build succeeded, the StepRepl build performs exactly two copy-tree calls,
in order: the bundle template `BuildAssets/StepRepl.app` to the output
bundle path, then the publish folder to the bundle's `Contents/MacOS`
subdirectory, both with `dirs_exist_ok=True` (overwrite on conflict). -/
theorem c6_theorem (env : Env) (p : String)
    (hosx : strStartsWith p "osx" = true)
    (hok : env.run (StepRepl.buildCommand p) = 0) :
    copies (StepRepl.do_build env p).1 =
      [("BuildAssets/StepRepl.app",
        "bin/Release/" ++ StepRepl.netver ++ "/" ++ p ++ "/StepRepl.app", true),
       ("bin/Release/" ++ StepRepl.netver ++ "/" ++ p ++ "/publish",
        "bin/Release/" ++ StepRepl.netver ++ "/" ++ p ++ "/StepRepl.app/Contents/MacOS",
        true)] := by
  rw [do_build_ok env p hok]
  dsimp only
  rw [copies_append, copies_append, copies_append, copies_open_output_folder,
    if_pos hosx, copies_create_app_bundle]
  rfl

/-- C6 witness: the theorem at a linux host for target osx-x64, with the
two copy destinations written out. -/
theorem c6_witness :
    strStartsWith "osx-x64" "osx" = true ∧
    copies (StepRepl.do_build envLinux0 "osx-x64").1 =
      [("BuildAssets/StepRepl.app", "bin/Release/net8.0/osx-x64/StepRepl.app", true),
       ("bin/Release/net8.0/osx-x64/publish",
        "bin/Release/net8.0/osx-x64/StepRepl.app/Contents/MacOS", true)] :=
  ⟨by decide, c6_theorem envLinux0 "osx-x64" (by decide) (by decide)⟩

/-- C7: on a non-macOS host, `create_app_bundle` still performs both
bundle copies, its trace ends with the unsupported-host warning, the
code-signing line is never printed, and a successful `--target osx-x64`
run still terminates with exit status 0 (the warning is non-fatal). -/
theorem c7_theorem (env : Env) (p : String) (hhost : env.host ≠ "darwin") :
    StepRepl.create_app_bundle env p =
      [Event.print "Creating .app bundle...",
       Event.copyTree "BuildAssets/StepRepl.app"
         ("bin/Release/" ++ StepRepl.netver ++ "/" ++ p ++ "/StepRepl.app") true,
       Event.copyTree ("bin/Release/" ++ StepRepl.netver ++ "/" ++ p ++ "/publish")
         ("bin/Release/" ++ StepRepl.netver ++ "/" ++ p ++ "/StepRepl.app/Contents/MacOS")
         true,
       Event.print "WARNING! This platform can't codesign app bundles and/or change the executable bit. Macs may complain or not run the app."] ∧
    Event.print "Codesigning..." ∉ StepRepl.create_app_bundle env p ∧
    (env.run (StepRepl.buildCommand "osx-x64") = 0 →
      (StepRepl.runScript env ["publish.py", "--target", "osx-x64"]).2 =
        Outcome.exited 0) := by
  have h1 : StepRepl.create_app_bundle env p =
      [Event.print "Creating .app bundle...",
       Event.copyTree "BuildAssets/StepRepl.app"
         ("bin/Release/" ++ StepRepl.netver ++ "/" ++ p ++ "/StepRepl.app") true,
       Event.copyTree ("bin/Release/" ++ StepRepl.netver ++ "/" ++ p ++ "/publish")
         ("bin/Release/" ++ StepRepl.netver ++ "/" ++ p ++ "/StepRepl.app/Contents/MacOS")
         true,
       Event.print "WARNING! This platform can't codesign app bundles and/or change the executable bit. Macs may complain or not run the app."] := by
    unfold StepRepl.create_app_bundle
    rw [if_neg hhost]
    rfl
  refine ⟨h1, ?_, ?_⟩
  · rw [h1]
    simp
  · intro hok
    rw [run_target_mem env "osx-x64" (by decide), do_build_ok env _ hok,
      finish_none]

/-- C7 witness: the theorem at a linux host whose builds succeed, for
target osx-x64. -/
theorem c7_witness :
    StepRepl.create_app_bundle envLinux0 "osx-x64" =
      [Event.print "Creating .app bundle...",
       Event.copyTree "BuildAssets/StepRepl.app"
         "bin/Release/net8.0/osx-x64/StepRepl.app" true,
       Event.copyTree "bin/Release/net8.0/osx-x64/publish"
         "bin/Release/net8.0/osx-x64/StepRepl.app/Contents/MacOS" true,
       Event.print "WARNING! This platform can't codesign app bundles and/or change the executable bit. Macs may complain or not run the app."] ∧
    Event.print "Codesigning..." ∉ StepRepl.create_app_bundle envLinux0 "osx-x64" ∧
    (StepRepl.runScript envLinux0 ["publish.py", "--target", "osx-x64"]).2 =
      Outcome.exited 0 :=
  ⟨(c7_theorem envLinux0 "osx-x64" (by decide)).1,
   (c7_theorem envLinux0 "osx-x64" (by decide)).2.1,
   (c7_theorem envLinux0 "osx-x64" (by decide)).2.2 rfl⟩

/-- C8: running the StepRepl script with `open` as its only argument
leaves `current_platform` empty, so the attempted path is the parent
directory `bin/Release/net8.0/` of all per-platform output folders: on a
darwin host the single `os.system` call is `open ./bin/Release/net8.0/`,
on a win32 host it is `start` on the joined `bin\Release\net8.0\` path,
on any other host nothing is run; in every case the exit status is 0. -/
theorem c8_theorem (env : Env) (prog : String) :
    (StepRepl.runScript env [prog, "open"]).2 = Outcome.exited 0 ∧
    (env.host = "darwin" →
      StepRepl.runScript env [prog, "open"] =
        ([Event.sysCmd "open ./bin/Release/net8.0/"], Outcome.exited 0)) ∧
    (env.host = "win32" →
      StepRepl.runScript env [prog, "open"] =
        ([Event.sysCmd ("start " ++ ntJoin env.cwd "bin\\Release\\net8.0\\")],
         Outcome.exited 0)) ∧
    (env.host ≠ "darwin" → env.host ≠ "win32" →
      StepRepl.runScript env [prog, "open"] = ([], Outcome.exited 0)) := by
  have hchain : StepRepl.runScript env [prog, "open"] =
      (StepRepl.open_output_folder env "", Outcome.exited 0) := rfl
  refine ⟨by rw [hchain], ?_, ?_, ?_⟩
  · intro h
    rw [hchain]
    unfold StepRepl.open_output_folder
    rw [if_pos h]
    rfl
  · intro h
    rw [hchain]
    unfold StepRepl.open_output_folder
    rw [if_neg (show env.host ≠ "darwin" by rw [h]; decide), if_pos h]
    rfl
  · intro hd hw
    rw [hchain]
    unfold StepRepl.open_output_folder
    rw [if_neg hd, if_neg hw]

/-- C8 witness: the theorem on a darwin host: the opened path is the
platform-less `bin/Release/net8.0/` and the exit status is 0. -/
theorem c8_witness :
    StepRepl.runScript envDarwin0 ["publish.py", "open"] =
      ([Event.sysCmd "open ./bin/Release/net8.0/"], Outcome.exited 0) ∧
    (StepRepl.runScript envDarwin0 ["publish.py", "open"]).2 = Outcome.exited 0 :=
  ⟨(c8_theorem envDarwin0 "publish.py").2.1 rfl,
   (c8_theorem envDarwin0 "publish.py").1⟩

/-- C10: on a darwin host (where the folder-open call manifests as an
`os.system` command) with all builds succeeding, the trace of a
successful `--target osx-x64` run is, in order: the publish print, the
`dotnet publish` call, the completion print, the folder-open command, and
only then the bundle creation events — so the output folder is opened
before the `.app` bundle exists; and a `--target all` run issues exactly
one folder-open command per platform, in platform order. -/
theorem c10_theorem (env : Env) (hd : env.host = "darwin")
    (h1 : env.run (StepRepl.buildCommand "win-x64") = 0)
    (h2 : env.run (StepRepl.buildCommand "linux-x64") = 0)
    (h3 : env.run (StepRepl.buildCommand "osx-x64") = 0) :
    (StepRepl.runScript env ["publish.py", "--target", "osx-x64"]).1 =
      [Event.print "Publishing for osx-x64...",
       Event.exec (StepRepl.buildCommand "osx-x64") (dirname env.cwd),
       Event.print "Publish completed for osx-x64.",
       Event.sysCmd "open ./bin/Release/net8.0/osx-x64",
       Event.print "Creating .app bundle...",
       Event.copyTree "BuildAssets/StepRepl.app"
         "bin/Release/net8.0/osx-x64/StepRepl.app" true,
       Event.copyTree "bin/Release/net8.0/osx-x64/publish"
         "bin/Release/net8.0/osx-x64/StepRepl.app/Contents/MacOS" true,
       Event.print "Codesigning..."] ∧
    sysCmds (StepRepl.runScript env ["publish.py", "--target", "all"]).1 =
      ["open ./bin/Release/net8.0/win-x64",
       "open ./bin/Release/net8.0/linux-x64",
       "open ./bin/Release/net8.0/osx-x64"] := by
  have ho : ∀ p : String, StepRepl.open_output_folder env p =
      [Event.sysCmd ("open ./bin/Release/" ++ StepRepl.netver ++ "/" ++ p)] := by
    intro p
    unfold StepRepl.open_output_folder
    rw [if_pos hd]
  have hsys : ∀ p : String, env.run (StepRepl.buildCommand p) = 0 →
      sysCmds (StepRepl.do_build env p).1 =
        ["open ./bin/Release/" ++ StepRepl.netver ++ "/" ++ p] := by
    intro p hp
    rw [do_build_ok env p hp]
    dsimp only
    rw [sysCmds_append, sysCmds_append, sysCmds_append, ho p]
    have hif : sysCmds
        (if strStartsWith p "osx" then StepRepl.create_app_bundle env p
         else []) = [] := by
      by_cases hx : strStartsWith p "osx" = true
      · rw [if_pos hx, sysCmds_create_app_bundle]
      · rw [if_neg hx]
        rfl
    rw [hif]
    rfl
  constructor
  · rw [run_target_mem env "osx-x64" (by decide), do_build_ok env _ h3,
      finish_none]
    dsimp only
    rw [if_pos (by decide : strStartsWith "osx-x64" "osx" = true), ho "osx-x64"]
    unfold StepRepl.create_app_bundle
    rw [if_pos hd]
    rfl
  · have hr : StepRepl.runScript env ["publish.py", "--target", "all"] =
        StepRepl.finish (StepRepl.publish_all env StepRepl.platforms) := rfl
    have hplat : StepRepl.platforms = "win-x64" :: "linux-x64" :: ["osx-x64"] := rfl
    have hall4 : StepRepl.publish_all env StepRepl.platforms =
        ((StepRepl.do_build env "win-x64").1 ++
          ((StepRepl.do_build env "linux-x64").1 ++
            ((StepRepl.do_build env "osx-x64").1 ++ [])),
         none) := by
      rw [hplat, publish_all_cons_ok env "win-x64" _ h1,
        publish_all_cons_ok env "linux-x64" _ h2,
        publish_all_cons_ok env "osx-x64" _ h3]
      rfl
    rw [hr, hall4, finish_none]
    dsimp only
    rw [sysCmds_append, hsys "win-x64" h1, sysCmds_append, hsys "linux-x64" h2,
      sysCmds_append, hsys "osx-x64" h3]
    rfl

/-- C10 witness: the theorem on a darwin host whose builds all succeed. -/
theorem c10_witness :
    (StepRepl.runScript envDarwin0 ["publish.py", "--target", "osx-x64"]).1 =
      [Event.print "Publishing for osx-x64...",
       Event.exec (StepRepl.buildCommand "osx-x64") (dirname envDarwin0.cwd),
       Event.print "Publish completed for osx-x64.",
       Event.sysCmd "open ./bin/Release/net8.0/osx-x64",
       Event.print "Creating .app bundle...",
       Event.copyTree "BuildAssets/StepRepl.app"
         "bin/Release/net8.0/osx-x64/StepRepl.app" true,
       Event.copyTree "bin/Release/net8.0/osx-x64/publish"
         "bin/Release/net8.0/osx-x64/StepRepl.app/Contents/MacOS" true,
       Event.print "Codesigning..."] ∧
    sysCmds (StepRepl.runScript envDarwin0 ["publish.py", "--target", "all"]).1 =
      ["open ./bin/Release/net8.0/win-x64",
       "open ./bin/Release/net8.0/linux-x64",
       "open ./bin/Release/net8.0/osx-x64"] :=
  c10_theorem envDarwin0 rfl rfl rfl rfl
